import Mathlib

/-!
Shallow embedding of the lead-scoring engine of
`b2b-sales-intelligence-platform` (`src/server.js`, class `JobAnalysisEngine`
and the `/api/batch-analyze` handler).

Modelling conventions:
* JavaScript strings are Lean `String`s; all substring matching is done on
  `List Char` (`String.includes(kw)` becomes `occursIn kw.toList s.toList`),
  and `toLowerCase` becomes `List.map Char.toLower` (the tables are ASCII).
* Absent (`undefined`) fields are `Option.none`.  JavaScript falsiness of a
  present value is modelled where the code relies on it: `!title` is true for
  the empty string, `industry || 'unknown'` replaces the empty string, and
  `lead.id || index` replaces the id `0`.
* Numeric scores are exact rationals (`ℚ`); `Math.round` is `⌊x + 1/2⌋`
  (round half toward +∞, which JavaScript's `Math.round` implements), and
  `Math.min(x, 100)` is `min x 100`.  The concrete score values reached in
  the theorems below are far enough from representation boundaries that the
  IEEE-double computation of the source agrees with the rational one.
* Employee counts are `Option Int` (`none` for absent/non-numeric values,
  for which every JS comparison `employees >= min` is false); the
  `Infinity` upper bound of the enterprise tier is `Option.none`.
* The industry-multiplier table is a plain JS object, so the lookup can hit
  members inherited from `Object.prototype` ("constructor", "__proto__"
  after lowercasing); multiplying by such a non-number gives `NaN`, which
  propagates through `Math.min` and `Math.round` and makes every priority
  comparison false.  `NaN` is modelled as `Option.none` in the score
  pipeline (`composedScore`, `cappedScore`, `jsRound`, `totalScore`).
-/

namespace B2B

/-- Boolean test that `p` is an initial segment of the second list. -/
def beginsWith : List Char → List Char → Bool
  | [], _ => true
  | _ :: _, [] => false
  | a :: as, b :: bs => a == b && beginsWith as bs

/-- Boolean substring occurrence test, the model of JavaScript
`hay.includes(needle)` for `needle`/`hay` as character lists. -/
def occursIn (needle : List Char) : List Char → Bool
  | [] => needle.isEmpty
  | h :: t => beginsWith needle (h :: t) || occursIn needle t

/-- JavaScript `s.toLowerCase()` on the character list of `s`. -/
def lowerChars (s : String) : List Char := s.toList.map Char.toLower

/-- `this.jobTitleWeights` of `JobAnalysisEngine`, in declaration order. -/
def jobTitleWeights : List (String × Nat) :=
  [("ceo", 100), ("chief executive officer", 100),
   ("cto", 95), ("chief technology officer", 95),
   ("cfo", 95), ("chief financial officer", 95),
   ("vp", 90), ("vice president", 90),
   ("director", 85), ("senior director", 87),
   ("manager", 70), ("senior manager", 75),
   ("lead", 65), ("senior lead", 68),
   ("specialist", 50), ("senior specialist", 55),
   ("analyst", 45), ("senior analyst", 50),
   ("coordinator", 40), ("associate", 35),
   ("assistant", 30), ("intern", 20)]

/-- `this.departmentWeights` of `JobAnalysisEngine`, in declaration order. -/
def departmentWeights : List (String × Nat) :=
  [("sales", 95), ("business development", 90),
   ("marketing", 85), ("product", 80),
   ("engineering", 75), ("technology", 75),
   ("operations", 70), ("finance", 65),
   ("hr", 60), ("human resources", 60),
   ("legal", 55), ("admin", 40)]

/-- One company tier: weight and inclusive employee range
(`emax = none` models the `Infinity` upper bound). -/
structure TierData where
  weight : Nat
  emin : Nat
  emax : Option Nat
  deriving Repr, DecidableEq

/-- `this.companyTiers` of `JobAnalysisEngine`, in declaration order. -/
def companyTiers : List (String × TierData) :=
  [("enterprise", ⟨100, 1000, none⟩),
   ("large", ⟨85, 250, some 999⟩),
   ("medium", ⟨70, 50, some 249⟩),
   ("small", ⟨55, 10, some 49⟩),
   ("startup", ⟨40, 1, some 9⟩)]

/-- Result record of `analyzeJobTitle`. -/
structure JobAnalysis where
  score : Nat
  level : String
  department : String
  deriving Repr, DecidableEq

/-- The level assigned inside the `analyzeJobTitle` loop when a new best
weight `w` is found (the if/else-if chain on `weight` in the source). -/
def levelOf (w : Nat) : String :=
  if w ≥ 90 then "c_level"
  else if w ≥ 80 then "director"
  else if w ≥ 65 then "manager"
  else if w ≥ 45 then "specialist"
  else "individual_contributor"

/-- One iteration of the job-level loop of `analyzeJobTitle`: on a substring
match with a strictly larger weight, update the best score and the level. -/
def titleStep (nt : List Char) (acc : Nat × String) (kw : String × Nat) :
    Nat × String :=
  if occursIn kw.1.toList nt then
    if kw.2 > acc.1 then (kw.2, levelOf kw.2) else acc
  else acc

/-- The department loop of `analyzeJobTitle`: first declared department
keyword occurring in the normalized title, else "unknown". -/
def findDept (nt : List Char) : String :=
  match departmentWeights.find? (fun d => occursIn d.1.toList nt) with
  | some d => d.1
  | none => "unknown"

/-- Spec-side reading of the job-title scan: the weights of all keywords
occurring in the normalized title, in table order. -/
def matchingWeights (nt : List Char) : List Nat :=
  (jobTitleWeights.filter (fun kw => occursIn kw.1.toList nt)).map Prod.snd

/-- `analyzeJobTitle(title)`.  `none` models an absent title; the JS guard
`if (!title)` is also true for the empty string. -/
def analyzeJobTitle (title : Option String) : JobAnalysis :=
  match title with
  | none => ⟨0, "unknown", "unknown"⟩
  | some t =>
    if t = "" then ⟨0, "unknown", "unknown"⟩
    else
      let nt := lowerChars t
      let best := jobTitleWeights.foldl (titleStep nt) (0, "individual_contributor")
      ⟨best.1, best.2, findDept nt⟩

/-- Company input record: `employees` absent or a (possibly non-positive)
integer, `industry`/`location` absent or arbitrary strings. -/
structure Company where
  employees : Option Int
  industry : Option String
  location : Option String
  deriving Repr, DecidableEq

/-- Result record of `analyzeCompany`. -/
structure CompanyAnalysis where
  tier : String
  weight : Nat
  employees : Option Int
  industry : String
  location : String
  deriving Repr, DecidableEq

/-- The JS test `employees >= min && employees <= max` for one tier; every
comparison against an absent (`undefined`) count is false, and the
`Infinity` upper bound (`emax = none`) is satisfied by every number. -/
def inRange (e : Option Int) (td : TierData) : Bool :=
  match e with
  | none => false
  | some n => decide ((td.emin : Int) ≤ n) &&
      (match td.emax with
       | none => true
       | some m => decide (n ≤ (m : Int)))

/-- JS `s || 'unknown'` for an optional string field: absent and empty
strings are both falsy and replaced by "unknown". -/
def orUnknown (s : Option String) : String :=
  match s with
  | none => "unknown"
  | some v => if v = "" then "unknown" else v

/-- `analyzeCompany(companyData)`: first declared tier whose range contains
the employee count, else the initial `startup`/40 defaults. -/
def analyzeCompany (c : Company) : CompanyAnalysis :=
  match companyTiers.find? (fun t => inRange c.employees t.2) with
  | some t => ⟨t.1, t.2.weight, c.employees, orUnknown c.industry, orUnknown c.location⟩
  | none => ⟨"startup", 40, c.employees, orUnknown c.industry, orUnknown c.location⟩

/-- The multiplier read by `industryMultipliers[industryKey] || 1.0` in
`calculateLeadScore`, on the lowercased industry.  The source's
`industryMultipliers` is a plain object literal and inherits from
`Object.prototype`, so the two all-lowercase inherited member names that
are reachable after `toLowerCase` — "constructor" and "__proto__" — read a
truthy non-number which the `|| 1.0` default does not replace, and the
following `score *= multiplier` produces `NaN`: that path is modelled as
`none`.  Any other unlisted key reads `undefined` (falsy) and falls back
to 1.0. -/
def industryMultiplier (industry : String) : Option ℚ :=
  let k := lowerChars industry
  if k = "technology".toList then some (11/10)
  else if k = "software".toList then some (11/10)
  else if k = "saas".toList then some (23/20)
  else if k = "finance".toList then some (21/20)
  else if k = "healthcare".toList then some (21/20)
  else if k = "manufacturing".toList then some (19/20)
  else if k = "retail".toList then some (9/10)
  else if k = "constructor".toList then none
  else if k = "__proto__".toList then none
  else some 1

/-- JavaScript `Math.round` on the possibly-`NaN` score (`none` models
`NaN`): round half toward +∞; `Math.round(NaN)` is `NaN`. -/
def jsRound : Option ℚ → Option Int
  | some q => some ⌊q + 1/2⌋
  | none => none

/-- `getPriorityLevel(score)`; in the source it is applied to the capped
score before rounding.  Every JS comparison against `NaN` (`none`) is
false, so a `NaN` score falls through the whole chain to "very_low". -/
def getPriorityLevel : Option ℚ → String
  | none => "very_low"
  | some score =>
    if score ≥ 80 then "high"
    else if score ≥ 60 then "medium"
    else if score ≥ 40 then "low"
    else "very_low"

/-- Job input record: only the title is read by the engine. -/
structure Job where
  title : Option String
  deriving Repr, DecidableEq

/-- Result record of `calculateLeadScore`; `totalScore = none` models the
`NaN` reached through an inherited industry key (serialized as JSON
`null`). -/
structure LeadAnalysis where
  totalScore : Option Int
  jobAnalysis : JobAnalysis
  companyAnalysis : CompanyAnalysis
  priority : String
  deriving Repr, DecidableEq

/-- The continuous score of `calculateLeadScore` after the company-size
multiplier, the sales/business-development bonus and the industry
multiplier, before the 100 cap; `none` is the `NaN` produced by
multiplying with an inherited non-number multiplier. -/
def composedScore (jobAnalysis : JobAnalysis) (companyAnalysis : CompanyAnalysis) : Option ℚ :=
  let score0 : ℚ := jobAnalysis.score
  let score1 := score0 * ((companyAnalysis.weight : ℚ) / 100)
  let score2 :=
    if jobAnalysis.department = "sales" ∨ jobAnalysis.department = "business development"
    then score1 * (6/5) else score1
  match industryMultiplier companyAnalysis.industry with
  | some m => some (score2 * m)
  | none => none

/-- The capped score `Math.min(score, 100)` of `calculateLeadScore`; both
`totalScore` (after rounding) and `priority` are computed from it, and
`Math.min(NaN, 100)` is `NaN`. -/
def cappedScore (job : Job) (company : Company) : Option ℚ :=
  match composedScore (analyzeJobTitle job.title) (analyzeCompany company) with
  | some q => some (min q 100)
  | none => none

/-- `calculateLeadScore(jobData, companyData)`. -/
def calculateLeadScore (job : Job) (company : Company) : LeadAnalysis :=
  let jobAnalysis := analyzeJobTitle job.title
  let companyAnalysis := analyzeCompany company
  let score := cappedScore job company
  ⟨jsRound score, jobAnalysis, companyAnalysis, getPriorityLevel score⟩

/-- The four fixed insight strings, in append order. -/
def insightCLevel : String :=
  "High-value C-level executive - excellent decision-making authority"

def insightSales : String :=
  "Sales professional - likely understands value of sales tools"

def insightEnterprise : String :=
  "Large enterprise - potential for high-value deal"

def insightPrime : String :=
  "Prime prospect - should be prioritized for immediate outreach"

/-- The JS comparison `x >= b` on a possibly-`NaN` number: false on `NaN`
(`none`). -/
def jsGe (x : Option Int) (b : Int) : Bool :=
  match x with
  | some n => decide (b ≤ n)
  | none => false

/-- `generateInsights(analysis)`: four independent pushes in source order. -/
def generateInsights (a : LeadAnalysis) : List String :=
  let insights : List String := []
  let insights := if a.jobAnalysis.level = "c_level"
    then insights ++ [insightCLevel] else insights
  let insights := if a.jobAnalysis.department = "sales"
    then insights ++ [insightSales] else insights
  let insights := if a.companyAnalysis.tier = "enterprise"
    then insights ++ [insightEnterprise] else insights
  let insights := if jsGe a.totalScore 80
    then insights ++ [insightPrime] else insights
  insights

/-- One entry of the `leads` array of `/api/batch-analyze`; ids are modelled
as integers (`none` for an absent id). -/
structure LeadEntry where
  id : Option Int
  job : Option Job
  company : Option Company
  deriving Repr, DecidableEq

/-- JS `lead.id || index`: an absent id, and the falsy id `0`, are both
replaced by the zero-based position. -/
def idOr (id : Option Int) (index : Nat) : Int :=
  match id with
  | some v => if v = 0 then (index : Int) else v
  | none => (index : Int)

/-- `calculateLeadScore` as invoked by the batch handler on one entry: the
`TypeError` thrown when `lead.job` or `lead.company` is `undefined`
(reading `.title`, resp. destructuring) becomes an `Except.error`. -/
def scoreLead (e : LeadEntry) : Except String LeadAnalysis :=
  match e.job with
  | none => .error "Cannot read properties of undefined (reading 'title')"
  | some j =>
    match e.company with
    | none => .error "Cannot destructure property 'name' of 'companyData' as it is undefined."
    | some c => .ok (calculateLeadScore j c)

/-- One result entry of the batch response (`analysis` carries the analysis
together with its insights; exactly one of `analysis`/`error` is present). -/
structure BatchResult where
  id : Int
  success : Bool
  analysis : Option (LeadAnalysis × List String)
  error : Option String
  deriving Repr, DecidableEq

/-- The body of `leads.map((lead, index) => ...)` with its inner try/catch. -/
def processLead (index : Nat) (e : LeadEntry) : BatchResult :=
  match scoreLead e with
  | .ok a => ⟨idOr e.id index, true, some (a, generateInsights a), none⟩
  | .error msg => ⟨idOr e.id index, false, none, some msg⟩

/-- The batch response envelope. -/
structure BatchResponse where
  success : Bool
  processed : Nat
  results : List BatchResult
  deriving Repr, DecidableEq

/-- The `/api/batch-analyze` handler after the `Array.isArray` guard:
per-entry processing and the `processed: results.length` field. -/
def batchAnalyze (leads : List LeadEntry) : BatchResponse :=
  let results := leads.enum.map (fun p => processLead p.1 p.2)
  ⟨true, results.length, results⟩


/-! ## Helper lemmas shared by the claim theorems -/

/-- Evaluate `jsRound` on a number from a bracketing of `q + 1/2`. -/
lemma jsRound_eq (q : ℚ) (n : ℤ) (h1 : (n : ℚ) ≤ q + 1/2) (h2 : q + 1/2 < n + 1) :
    jsRound (some q) = some n := by
  show some ⌊q + 1/2⌋ = some n
  exact congrArg some (Int.floor_eq_iff.mpr ⟨h1, h2⟩)

/-- `composedScore` through a numeric multiplier, as one flattened
product. -/
lemma composedScore_some (j : JobAnalysis) (c : CompanyAnalysis) (m : ℚ)
    (hm : industryMultiplier c.industry = some m) :
    composedScore j c =
      some ((j.score : ℚ) * ((c.weight : ℚ) / 100) *
        (if j.department = "sales" ∨ j.department = "business development"
         then (6/5 : ℚ) else 1) * m) := by
  simp only [composedScore, hm]
  congr 1
  split <;> ring

/-- `composedScore` is `NaN` exactly on the inherited-key multiplier
path. -/
lemma composedScore_none (j : JobAnalysis) (c : CompanyAnalysis)
    (hm : industryMultiplier c.industry = none) :
    composedScore j c = none := by
  simp only [composedScore, hm]

lemma industryMultiplier_saas : industryMultiplier "saas" = some (23/20) := by
  simp only [industryMultiplier]
  rw [if_neg (by decide), if_neg (by decide), if_pos (by decide)]

lemma industryMultiplier_SaaS : industryMultiplier "SaaS" = some (23/20) := by
  simp only [industryMultiplier]
  rw [if_neg (by decide), if_neg (by decide), if_pos (by decide)]

lemma industryMultiplier_Technology : industryMultiplier "Technology" = some (11/10) := by
  simp only [industryMultiplier]
  rw [if_pos (by decide)]

lemma industryMultiplier_unknown : industryMultiplier "unknown" = some 1 := by
  simp only [industryMultiplier]
  rw [if_neg (by decide), if_neg (by decide), if_neg (by decide), if_neg (by decide),
    if_neg (by decide), if_neg (by decide), if_neg (by decide), if_neg (by decide),
    if_neg (by decide)]

lemma industryMultiplier_Pharma : industryMultiplier "Pharma" = some 1 := by
  simp only [industryMultiplier]
  rw [if_neg (by decide), if_neg (by decide), if_neg (by decide), if_neg (by decide),
    if_neg (by decide), if_neg (by decide), if_neg (by decide), if_neg (by decide),
    if_neg (by decide)]

/-- Industry "Constructor" lowercases to "constructor", an inherited
`Object.prototype` member of the multiplier object: the score becomes
`NaN`. -/
lemma industryMultiplier_Constructor : industryMultiplier "Constructor" = none := by
  simp only [industryMultiplier]
  rw [if_neg (by decide), if_neg (by decide), if_neg (by decide), if_neg (by decide),
    if_neg (by decide), if_neg (by decide), if_neg (by decide), if_pos (by decide)]

/-- "__proto__" reads the inherited prototype object: the score becomes
`NaN`. -/
lemma industryMultiplier_proto : industryMultiplier "__proto__" = none := by
  simp only [industryMultiplier]
  rw [if_neg (by decide), if_neg (by decide), if_neg (by decide), if_neg (by decide),
    if_neg (by decide), if_neg (by decide), if_neg (by decide), if_neg (by decide),
    if_pos (by decide)]

/-- `calculateLeadScore` written with its four fields explicit. -/
lemma calculateLeadScore_parts (job : Job) (company : Company) :
    calculateLeadScore job company =
      ⟨jsRound (cappedScore job company), analyzeJobTitle job.title,
        analyzeCompany company, getPriorityLevel (cappedScore job company)⟩ := rfl

/-- Evaluate `cappedScore` through a numeric multiplier. -/
lemma cappedScore_some (job : Job) (company : Company) (j : JobAnalysis)
    (c : CompanyAnalysis) (m q : ℚ)
    (hj : analyzeJobTitle job.title = j) (hc : analyzeCompany company = c)
    (hm : industryMultiplier c.industry = some m)
    (hq : (j.score : ℚ) * ((c.weight : ℚ) / 100) *
      (if j.department = "sales" ∨ j.department = "business development"
       then (6/5 : ℚ) else 1) * m = q) :
    cappedScore job company = some (min q 100) := by
  unfold cappedScore
  rw [hj, hc, composedScore_some j c m hm, hq]

/-- `cappedScore` is `NaN` when the multiplier path is. -/
lemma cappedScore_none (job : Job) (company : Company)
    (hm : industryMultiplier (analyzeCompany company).industry = none) :
    cappedScore job company = none := by
  unfold cappedScore
  rw [composedScore_none _ _ hm]

/-- Full evaluation of the engine on title "Manager", 250 employees:
raw score 70 × 0.85 = 59.5, rounded up to 60, priority "low". -/
lemma manager250 : calculateLeadScore ⟨some "Manager"⟩ ⟨some 250, none, none⟩ =
    ⟨some 60, ⟨70, "manager", "unknown"⟩, ⟨"large", 85, some 250, "unknown", "unknown"⟩,
      "low"⟩ := by
  have hj : analyzeJobTitle (some "Manager") = ⟨70, "manager", "unknown"⟩ := by decide
  have hc : analyzeCompany ⟨some 250, none, none⟩ =
      ⟨"large", 85, some 250, "unknown", "unknown"⟩ := by decide
  have hs : cappedScore ⟨some "Manager"⟩ ⟨some 250, none, none⟩ = some (119/2) := by
    rw [cappedScore_some _ _ _ _ 1 (119/2) hj hc industryMultiplier_unknown
      (by rw [if_neg (by decide)]; norm_num)]
    norm_num
  rw [calculateLeadScore_parts, hj, hc, hs,
    jsRound_eq (119/2) 60 (by norm_num) (by norm_num)]
  norm_num [getPriorityLevel]

/-- Full evaluation on title "Sales Specialist", 1000 employees:
raw score 50 × 1.0 × 1.2 = 60 exactly, priority "medium". -/
lemma salesSpecialist1000 :
    calculateLeadScore ⟨some "Sales Specialist"⟩ ⟨some 1000, none, none⟩ =
      ⟨some 60, ⟨50, "specialist", "sales"⟩,
        ⟨"enterprise", 100, some 1000, "unknown", "unknown"⟩, "medium"⟩ := by
  have hj : analyzeJobTitle (some "Sales Specialist") = ⟨50, "specialist", "sales"⟩ := by decide
  have hc : analyzeCompany ⟨some 1000, none, none⟩ =
      ⟨"enterprise", 100, some 1000, "unknown", "unknown"⟩ := by decide
  have hs : cappedScore ⟨some "Sales Specialist"⟩ ⟨some 1000, none, none⟩ = some 60 := by
    rw [cappedScore_some _ _ _ _ 1 60 hj hc industryMultiplier_unknown
      (by rw [if_pos (by decide)]; norm_num)]
    norm_num
  rw [calculateLeadScore_parts, hj, hc, hs,
    jsRound_eq 60 60 (by norm_num) (by norm_num)]
  norm_num [getPriorityLevel]

/-- Full evaluation on the spec example "Sales Director", 25 employees,
industry "saas".  The keyword "cto" occurs inside "director", so the job
score is 95 (level "c_level"), not 85: 95 × 0.55 × 1.2 × 1.15 = 72.105,
rounded to 72. -/
lemma salesDirector25 :
    calculateLeadScore ⟨some "Sales Director"⟩ ⟨some 25, some "saas", none⟩ =
      ⟨some 72, ⟨95, "c_level", "sales"⟩, ⟨"small", 55, some 25, "saas", "unknown"⟩,
        "medium"⟩ := by
  have hj : analyzeJobTitle (some "Sales Director") = ⟨95, "c_level", "sales"⟩ := by decide
  have hc : analyzeCompany ⟨some 25, some "saas", none⟩ =
      ⟨"small", 55, some 25, "saas", "unknown"⟩ := by decide
  have hs : cappedScore ⟨some "Sales Director"⟩ ⟨some 25, some "saas", none⟩ =
      some (72105/1000) := by
    rw [cappedScore_some _ _ _ _ (23/20) (72105/1000) hj hc industryMultiplier_saas
      (by rw [if_pos (by decide)]; norm_num)]
    norm_num
  rw [calculateLeadScore_parts, hj, hc, hs,
    jsRound_eq (72105/1000) 72 (by norm_num) (by norm_num)]
  norm_num [getPriorityLevel]

/-! ## C1 -/

/-- C1 counterexample: two inputs whose `totalScore` is 60 in both cases but
whose priorities differ ("low" vs "medium"), because `getPriorityLevel` is
applied to the capped score before rounding: "Manager" at a 250-employee
company scores 59.5 (rounds to 60, priority "low") while "Sales Specialist"
at a 1000-employee company scores exactly 60 (priority "medium").  So the
priority returned by `calculateLeadScore` is not a pure function of the
returned `totalScore`. -/
theorem c1_counterexample :
    (calculateLeadScore ⟨some "Manager"⟩ ⟨some 250, none, none⟩).totalScore =
      (calculateLeadScore ⟨some "Sales Specialist"⟩ ⟨some 1000, none, none⟩).totalScore ∧
    (calculateLeadScore ⟨some "Manager"⟩ ⟨some 250, none, none⟩).priority = "low" ∧
    (calculateLeadScore ⟨some "Sales Specialist"⟩ ⟨some 1000, none, none⟩).priority =
      "medium" := by
  rw [manager250, salesSpecialist1000]
  exact ⟨rfl, rfl, rfl⟩

/-- C1 (amended): the priority returned by `calculateLeadScore` is a pure
function of the capped pre-rounding score (`cappedScore`), per the fixed
thresholds ≥80 "high", ≥60 "medium", ≥40 "low", else "very_low"; any two
inputs with the same capped raw score receive the same priority (but two
inputs with the same rounded `totalScore` need not). -/
theorem c1_amended_priority_pure_in_cappedScore
    (ja jb : Job) (ca cb : Company)
    (h : cappedScore ja ca = cappedScore jb cb) :
    (calculateLeadScore ja ca).priority = getPriorityLevel (cappedScore ja ca) ∧
    (calculateLeadScore ja ca).priority = (calculateLeadScore jb cb).priority := by
  constructor
  · rw [calculateLeadScore_parts]
  · rw [calculateLeadScore_parts, calculateLeadScore_parts, h]

/-- Witness for C1 (amended) at two concrete distinct inputs with equal
capped score 59.5. -/
theorem c1_amended_witness :
    (calculateLeadScore ⟨some "Manager"⟩ ⟨some 250, none, none⟩).priority =
      getPriorityLevel (cappedScore ⟨some "Manager"⟩ ⟨some 250, none, none⟩) ∧
    (calculateLeadScore ⟨some "Manager"⟩ ⟨some 250, none, none⟩).priority =
      (calculateLeadScore ⟨some "Manager"⟩ ⟨some 250, none, some "Austin"⟩).priority := by
  refine c1_amended_priority_pure_in_cappedScore _ _ _ _ ?_
  have h1 : cappedScore ⟨some "Manager"⟩ ⟨some 250, none, none⟩ = some (119/2) := by
    have hj : analyzeJobTitle (some "Manager") = ⟨70, "manager", "unknown"⟩ := by decide
    have hc : analyzeCompany ⟨some 250, none, none⟩ =
        ⟨"large", 85, some 250, "unknown", "unknown"⟩ := by decide
    rw [cappedScore_some _ _ _ _ 1 (119/2) hj hc industryMultiplier_unknown
      (by rw [if_neg (by decide)]; norm_num)]
    norm_num
  have h2 : cappedScore ⟨some "Manager"⟩ ⟨some 250, none, some "Austin"⟩ = some (119/2) := by
    have hj : analyzeJobTitle (some "Manager") = ⟨70, "manager", "unknown"⟩ := by decide
    have hc : analyzeCompany ⟨some 250, none, some "Austin"⟩ =
        ⟨"large", 85, some 250, "unknown", "Austin"⟩ := by decide
    rw [cappedScore_some _ _ _ _ 1 (119/2) hj hc industryMultiplier_unknown
      (by rw [if_neg (by decide)]; norm_num)]
    norm_num
  rw [h1, h2]

/-! ## C2 -/

/-- C2 counterexample: on title "Sales Director" and company
{employees: 25, industry: "saas"} the engine returns `totalScore` 72, not
65, because the job-title keyword "cto" (weight 95) occurs as a substring
inside "director", so the job score is 95 rather than 85 and the level is
"c_level" rather than "director": 95 × 0.55 × 1.2 × 1.15 = 72.105 → 72. -/
theorem c2_counterexample :
    (calculateLeadScore ⟨some "Sales Director"⟩
        ⟨some 25, some "saas", none⟩).totalScore ≠ some 65 ∧
    (calculateLeadScore ⟨some "Sales Director"⟩
        ⟨some 25, some "saas", none⟩).jobAnalysis.level ≠ "director" := by
  rw [salesDirector25]
  exact ⟨by decide, by decide⟩

/-- C2 (amended): whenever the lowercased industry reads a numeric
multiplier — a listed key (technology/software 1.1, saas 1.15,
finance/healthcare 1.05, manufacturing 0.95, retail 0.9) or any unlisted
key that is not an inherited `Object.prototype` member, which defaults to
1.0 — `calculateLeadScore` computes `totalScore` as round(min(scaled, 100))
with scaled = jobScore × (companyWeight/100), × 1.2 when the detected
department is "sales" or "business development", cap before round-half-up
rounding; on the inherited keys ("constructor", "__proto__" after
lowercasing) the multiplier is a non-number and `totalScore` is `NaN`
(`none`).  For title "Sales Director" and company {employees: 25,
industry: "saas"} it returns totalScore 72, level "c_level" (the keyword
"cto", weight 95, is a substring of "director"), department "sales", tier
"small", priority "medium". -/
theorem c2_amended_score_formula :
    (∀ (job : Job) (company : Company) (m : ℚ),
      industryMultiplier (analyzeCompany company).industry = some m →
      (calculateLeadScore job company).totalScore =
        some ⌊min (((analyzeJobTitle job.title).score : ℚ) *
            (((analyzeCompany company).weight : ℚ) / 100) *
            (if (analyzeJobTitle job.title).department = "sales" ∨
                (analyzeJobTitle job.title).department = "business development"
             then (6/5 : ℚ) else 1) * m) 100 + 1/2⌋) ∧
    (∀ (job : Job) (company : Company),
      industryMultiplier (analyzeCompany company).industry = none →
      (calculateLeadScore job company).totalScore = none ∧
      (calculateLeadScore job company).priority = "very_low") ∧
    industryMultiplier "Technology" = some (11/10) ∧
    industryMultiplier "SaaS" = some (23/20) ∧
    industryMultiplier "Pharma" = some 1 ∧
    industryMultiplier "Constructor" = none ∧
    calculateLeadScore ⟨some "Sales Director"⟩ ⟨some 25, some "saas", none⟩ =
      ⟨some 72, ⟨95, "c_level", "sales"⟩, ⟨"small", 55, some 25, "saas", "unknown"⟩,
        "medium"⟩ := by
  refine ⟨?_, ?_, industryMultiplier_Technology, industryMultiplier_SaaS,
    industryMultiplier_Pharma, industryMultiplier_Constructor, salesDirector25⟩
  · intro job company m hm
    rw [calculateLeadScore_parts, cappedScore_some job company _ _ m _ rfl rfl hm rfl]
    rfl
  · intro job company hm
    rw [calculateLeadScore_parts, cappedScore_none job company hm]
    exact ⟨rfl, rfl⟩

/-- Witness for C2 (amended): the numeric-multiplier formula instantiated
at an all-default input, and the `NaN` path at industry "Constructor". -/
theorem c2_amended_witness :
    (calculateLeadScore ⟨none⟩ ⟨none, none, none⟩).totalScore =
      some ⌊min (((analyzeJobTitle (none : Option String)).score : ℚ) *
          (((analyzeCompany ⟨none, none, none⟩).weight : ℚ) / 100) *
          (if (analyzeJobTitle (none : Option String)).department = "sales" ∨
              (analyzeJobTitle (none : Option String)).department = "business development"
           then (6/5 : ℚ) else 1) * 1) 100 + 1/2⌋ ∧
    (calculateLeadScore ⟨some "CEO"⟩
        ⟨some 1500, some "Constructor", none⟩).totalScore = none ∧
    (calculateLeadScore ⟨some "CEO"⟩
        ⟨some 1500, some "Constructor", none⟩).priority = "very_low" := by
  have hunk : industryMultiplier
      ((analyzeCompany (⟨none, none, none⟩ : Company)).industry) = some 1 := by
    rw [show (analyzeCompany (⟨none, none, none⟩ : Company)).industry = "unknown" from
      by decide]
    exact industryMultiplier_unknown
  have hcon : industryMultiplier
      ((analyzeCompany (⟨some 1500, some "Constructor", none⟩ : Company)).industry) =
        none := by
    rw [show (analyzeCompany (⟨some 1500, some "Constructor", none⟩ : Company)).industry =
      "Constructor" from by decide]
    exact industryMultiplier_Constructor
  have hnan := c2_amended_score_formula.2.1 ⟨some "CEO"⟩
    ⟨some 1500, some "Constructor", none⟩ hcon
  exact ⟨c2_amended_score_formula.1 ⟨none⟩ ⟨none, none, none⟩ 1 hunk, hnan.1, hnan.2⟩

/-! ## C5 and C10 -/

lemma foldl_titleStep_fst (nt : List Char) (l : List (String × Nat)) :
    ∀ a : Nat × String,
      (l.foldl (titleStep nt) a).1 =
        ((l.filter (fun kw => occursIn kw.1.toList nt)).map Prod.snd).foldl max a.1 := by
  induction l with
  | nil => intro a; rfl
  | cons hd tl ih =>
    intro a
    by_cases hm : occursIn hd.1.toList nt
    · rw [List.foldl_cons, ih, List.filter_cons_of_pos (by simpa using hm),
        List.map_cons, List.foldl_cons]
      congr 1
      simp only [titleStep, if_pos hm]
      by_cases hgt : hd.2 > a.1
      · rw [if_pos hgt]
        exact (Nat.max_eq_right hgt.le).symm
      · rw [if_neg hgt]
        exact (Nat.max_eq_left (Nat.le_of_not_lt hgt)).symm
    · rw [List.foldl_cons, ih, List.filter_cons_of_neg (by simpa using hm)]
      congr 1
      simp only [titleStep, if_neg hm]

lemma foldl_titleStep_snd (nt : List Char) (l : List (String × Nat)) :
    ∀ a : Nat × String, a.2 = levelOf a.1 →
      (l.foldl (titleStep nt) a).2 = levelOf (l.foldl (titleStep nt) a).1 := by
  induction l with
  | nil => intro a ha; exact ha
  | cons hd tl ih =>
    intro a ha
    rw [List.foldl_cons]
    apply ih
    simp only [titleStep]
    by_cases hm : occursIn hd.1.toList nt
    · rw [if_pos hm]
      by_cases hgt : hd.2 > a.1
      · rw [if_pos hgt]
      · rw [if_neg hgt]; exact ha
    · rw [if_neg hm]; exact ha

lemma levelOf_ne_unknown (w : Nat) : levelOf w ≠ "unknown" := by
  unfold levelOf
  split_ifs <;> decide

lemma analyzeJobTitle_some (t : String) (h : t ≠ "") :
    analyzeJobTitle (some t) =
      ⟨(matchingWeights (lowerChars t)).foldl max 0,
       levelOf ((matchingWeights (lowerChars t)).foldl max 0),
       findDept (lowerChars t)⟩ := by
  have hfst := foldl_titleStep_fst (lowerChars t) jobTitleWeights (0, "individual_contributor")
  have hsnd := foldl_titleStep_snd (lowerChars t) jobTitleWeights
    (0, "individual_contributor") rfl
  simp only [analyzeJobTitle, if_neg h]
  rw [JobAnalysis.mk.injEq]
  refine ⟨hfst, ?_, rfl⟩
  rw [hsnd, hfst]
  rfl


theorem c5_analyzeJobTitle_spec :
    analyzeJobTitle none = ⟨0, "unknown", "unknown"⟩ ∧
    analyzeJobTitle (some "") = ⟨0, "unknown", "unknown"⟩ ∧
    ∀ t : String, t ≠ "" →
      (analyzeJobTitle (some t)).score = (matchingWeights (lowerChars t)).foldl max 0 ∧
      (analyzeJobTitle (some t)).level = levelOf ((analyzeJobTitle (some t)).score) ∧
      (analyzeJobTitle (some t)).level ≠ "unknown" ∧
      (analyzeJobTitle (some t)).department = findDept (lowerChars t) := by
  refine ⟨rfl, by decide, ?_⟩
  intro t ht
  rw [analyzeJobTitle_some t ht]
  exact ⟨rfl, rfl, levelOf_ne_unknown _, rfl⟩

theorem c5_witness :
    (analyzeJobTitle (some "Senior Sales Manager")).score =
      (matchingWeights (lowerChars "Senior Sales Manager")).foldl max 0 ∧
    (analyzeJobTitle (some "Senior Sales Manager")).level =
      levelOf ((analyzeJobTitle (some "Senior Sales Manager")).score) ∧
    (analyzeJobTitle (some "Senior Sales Manager")).level ≠ "unknown" ∧
    (analyzeJobTitle (some "Senior Sales Manager")).department =
      findDept (lowerChars "Senior Sales Manager") :=
  c5_analyzeJobTitle_spec.2.2 "Senior Sales Manager" (by decide)

lemma score_zero_of_title (job : Job)
    (h : job.title = none ∨ job.title = some "" ∨
         ∃ t, job.title = some t ∧
           ∀ kw ∈ jobTitleWeights, occursIn kw.1.toList (lowerChars t) = false) :
    (analyzeJobTitle job.title).score = 0 := by
  rcases h with h | h | ⟨t, ht, hno⟩
  · rw [h]; rfl
  · rw [h]; decide
  · rw [ht]
    by_cases hte : t = ""
    · rw [hte]; decide
    · rw [analyzeJobTitle_some t hte]
      have hnil : matchingWeights (lowerChars t) = [] := by
        unfold matchingWeights
        have : jobTitleWeights.filter (fun kw => occursIn kw.1.toList (lowerChars t)) = [] := by
          rw [List.filter_eq_nil_iff]
          intro kw hkw
          simpa using hno kw hkw
        rw [this]
        rfl
      rw [hnil]
      rfl

/-- With a zero job score, the capped score is 0 on the numeric-multiplier
path and `NaN` on the inherited-key path. -/
lemma cappedScore_of_score_zero (job : Job) (company : Company)
    (h0 : (analyzeJobTitle job.title).score = 0) :
    (∀ m : ℚ, industryMultiplier (analyzeCompany company).industry = some m →
      cappedScore job company = some 0) ∧
    (industryMultiplier (analyzeCompany company).industry = none →
      cappedScore job company = none) := by
  constructor
  · intro m hm
    rw [cappedScore_some job company _ _ m 0 rfl rfl hm
      (by rw [h0]; push_cast; ring)]
    norm_num
  · intro hm
    exact cappedScore_none job company hm

/-- C10 counterexample: with an absent title and industry "Constructor",
the zero job score is not absorbing: 0 × (inherited constructor function)
is `NaN`, so `totalScore` is `NaN` (`none`, serialized as JSON `null`),
not 0 — though the priority still falls through to "very_low". -/
theorem c10_counterexample :
    (calculateLeadScore ⟨none⟩ ⟨some 1500, some "Constructor", none⟩).totalScore ≠ some 0 ∧
    (calculateLeadScore ⟨none⟩ ⟨some 1500, some "Constructor", none⟩).totalScore = none ∧
    (calculateLeadScore ⟨none⟩ ⟨some 1500, some "Constructor", none⟩).priority =
      "very_low" := by
  have hcon : industryMultiplier
      ((analyzeCompany (⟨some 1500, some "Constructor", none⟩ : Company)).industry) =
        none := by
    rw [show (analyzeCompany (⟨some 1500, some "Constructor", none⟩ : Company)).industry =
      "Constructor" from by decide]
    exact industryMultiplier_Constructor
  rw [calculateLeadScore_parts, cappedScore_none _ _ hcon]
  exact ⟨by decide, rfl, rfl⟩

/-- C10 (amended): if the job title is absent, empty, or contains no
job-title keyword as a substring, `calculateLeadScore` returns priority
"very_low" for every company, and totalScore 0 for every company whose
industry reads a numeric multiplier; on the inherited-key industries
("constructor"/"__proto__" after lowercasing) the zero job score is not
absorbing — 0 × non-number is `NaN` and `totalScore` is `NaN` (`none`)
instead of 0. -/
theorem c10_amended_zero_absorbing (job : Job) (company : Company)
    (h : job.title = none ∨ job.title = some "" ∨
         ∃ t, job.title = some t ∧
           ∀ kw ∈ jobTitleWeights, occursIn kw.1.toList (lowerChars t) = false) :
    (calculateLeadScore job company).priority = "very_low" ∧
    (∀ m : ℚ, industryMultiplier (analyzeCompany company).industry = some m →
      (calculateLeadScore job company).totalScore = some 0) ∧
    (industryMultiplier (analyzeCompany company).industry = none →
      (calculateLeadScore job company).totalScore = none) := by
  obtain ⟨hsome, hnone⟩ := cappedScore_of_score_zero job company (score_zero_of_title job h)
  refine ⟨?_, ?_, ?_⟩
  · rw [calculateLeadScore_parts]
    cases hm : industryMultiplier ((analyzeCompany company).industry) with
    | none =>
      rw [hnone hm]
      rfl
    | some m =>
      rw [hsome m hm]
      norm_num [getPriorityLevel]
  · intro m hm
    rw [calculateLeadScore_parts, hsome m hm,
      jsRound_eq 0 0 (by norm_num) (by norm_num)]
  · intro hm
    rw [calculateLeadScore_parts, hnone hm]
    rfl

/-- Witness for C10 (amended) at an absent title with a listed industry. -/
theorem c10_witness :
    (calculateLeadScore ⟨none⟩ ⟨some 1500, some "saas", none⟩).priority = "very_low" ∧
    (calculateLeadScore ⟨none⟩ ⟨some 1500, some "saas", none⟩).totalScore = some 0 := by
  have h := c10_amended_zero_absorbing ⟨none⟩ ⟨some 1500, some "saas", none⟩ (Or.inl rfl)
  refine ⟨h.1, h.2.1 (23/20) ?_⟩
  rw [show (analyzeCompany (⟨some 1500, some "saas", none⟩ : Company)).industry = "saas"
    from by decide]
  exact industryMultiplier_saas

/-! ## C3 and C4 -/

lemma batchAnalyze_results_getElem (leads : List LeadEntry) (i : Nat) (e : LeadEntry)
    (h : leads[i]? = some e) :
    (batchAnalyze leads).results[i]? = some (processLead i e) := by
  show (leads.enum.map (fun p => processLead p.1 p.2))[i]? = some (processLead i e)
  rw [List.getElem?_map, List.getElem?_enum, h]
  rfl

/-- C3: batch analysis processes every submitted entry: `processed` equals
the number of entries, an entry with both `job` and `company` present gets
a `success: true` result carrying an analysis, and an entry whose scoring
throws (missing `job` or `company`) gets a `success: false` result carrying
an error message, without aborting the rest of the batch. -/
theorem c3_batch_isolation (leads : List LeadEntry) :
    (batchAnalyze leads).processed = leads.length ∧
    ∀ (i : Nat) (e : LeadEntry), leads[i]? = some e →
      ∃ r : BatchResult, (batchAnalyze leads).results[i]? = some r ∧
        (e.job.isSome ∧ e.company.isSome →
          r.success = true ∧ r.analysis.isSome ∧ r.error = none) ∧
        (e.job.isNone ∨ e.company.isNone →
          r.success = false ∧ r.error.isSome ∧ r.analysis = none) := by
  constructor
  · show (leads.enum.map (fun p => processLead p.1 p.2)).length = leads.length
    rw [List.length_map, List.enum_length]
  · intro i e h
    refine ⟨processLead i e, batchAnalyze_results_getElem leads i e h, ?_, ?_⟩
    · rintro ⟨hj, hc⟩
      obtain ⟨j, hj⟩ := Option.isSome_iff_exists.mp hj
      obtain ⟨c, hc⟩ := Option.isSome_iff_exists.mp hc
      simp [processLead, scoreLead, hj, hc]
    · intro hbad
      rcases hbad with hj | hc
      · obtain hj := Option.isNone_iff_eq_none.mp hj
        simp [processLead, scoreLead, hj]
      · obtain hc := Option.isNone_iff_eq_none.mp hc
        cases hj : e.job with
        | none => simp [processLead, scoreLead, hj]
        | some j => simp [processLead, scoreLead, hj, hc]

/-- Witness for C3 on a two-entry batch whose first entry lacks `job`. -/
theorem c3_witness :
    (batchAnalyze [⟨none, none, some ⟨some 5, none, none⟩⟩,
        ⟨none, some ⟨some "CEO"⟩, some ⟨some 5, none, none⟩⟩]).processed = 2 ∧
    ∃ r, (batchAnalyze [⟨none, none, some ⟨some 5, none, none⟩⟩,
        ⟨none, some ⟨some "CEO"⟩, some ⟨some 5, none, none⟩⟩]).results[0]? = some r ∧
      r.success = false ∧ r.error.isSome ∧ r.analysis = none := by
  have h := c3_batch_isolation [⟨none, none, some ⟨some 5, none, none⟩⟩,
    ⟨none, some ⟨some "CEO"⟩, some ⟨some 5, none, none⟩⟩]
  refine ⟨h.1, ?_⟩
  obtain ⟨r, hr, _, hbad⟩ := h.2 0 ⟨none, none, some ⟨some 5, none, none⟩⟩ rfl
  exact ⟨r, hr, hbad (Or.inl rfl)⟩

/-- C4 counterexample: in a batch whose second entry (index 1) carries the
caller-supplied id 0, the result id is 1 (the position), not the supplied
id: `lead.id || index` treats the id 0 as falsy. -/
theorem c4_counterexample :
    ¬ ((batchAnalyze [⟨none, none, none⟩, ⟨some 0, none, none⟩]).results.map
        BatchResult.id = [0, 0]) ∧
    (batchAnalyze [⟨none, none, none⟩, ⟨some 0, none, none⟩]).results.map
        BatchResult.id = [0, 1] := by
  refine ⟨?_, ?_⟩ <;> decide

/-- C4 (amended): the result id of each batch entry equals the
caller-supplied id when that id is present and truthy (non-zero), and the
entry's zero-based position when the id is absent or 0. -/
theorem c4_amended_id_default (leads : List LeadEntry) (i : Nat) (e : LeadEntry)
    (h : leads[i]? = some e) :
    ∃ r, (batchAnalyze leads).results[i]? = some r ∧
      (∀ v, e.id = some v → v ≠ 0 → r.id = v) ∧
      ((e.id = none ∨ e.id = some 0) → r.id = (i : Int)) := by
  refine ⟨processLead i e, batchAnalyze_results_getElem leads i e h, ?_, ?_⟩
  · intro v hv hnz
    have : (processLead i e).id = idOr e.id i := by
      unfold processLead
      cases scoreLead e <;> rfl
    rw [this, hv]
    simp [idOr, hnz]
  · intro hid
    have : (processLead i e).id = idOr e.id i := by
      unfold processLead
      cases scoreLead e <;> rfl
    rw [this]
    rcases hid with hid | hid <;> rw [hid] <;> simp [idOr]

/-- Witness for C4 (amended) on a concrete three-entry batch. -/
theorem c4_amended_witness :
    ∃ r, (batchAnalyze [⟨some 7, none, none⟩, ⟨none, none, none⟩]).results[0]? = some r ∧
      (∀ v, (some (7:Int) : Option Int) = some v → v ≠ 0 → r.id = v) ∧
      (((some (7:Int) : Option Int) = none ∨ (some (7:Int) : Option Int) = some 0) →
        r.id = (0 : Int)) :=
  c4_amended_id_default [⟨some 7, none, none⟩, ⟨none, none, none⟩] 0 ⟨some 7, none, none⟩ rfl

/-! ## C6 -/

lemma inRange_bounds (n : Int) (w emin emax : Nat) :
    inRange (some n) ⟨w, emin, some emax⟩ = true ↔ (emin : Int) ≤ n ∧ n ≤ (emax : Int) := by
  simp [inRange]

lemma inRange_unbounded (n : Int) (w emin : Nat) :
    inRange (some n) ⟨w, emin, none⟩ = true ↔ (emin : Int) ≤ n := by
  simp [inRange]

lemma inRange_absent (td : TierData) : inRange none td = false := rfl

lemma analyzeCompany_find (c : Company) (p : String × TierData)
    (h : companyTiers.find? (fun t => inRange c.employees t.2) = some p) :
    (analyzeCompany c).tier = p.1 ∧ (analyzeCompany c).weight = p.2.weight := by
  unfold analyzeCompany
  rw [h]
  exact ⟨rfl, rfl⟩

lemma analyzeCompany_fallback (c : Company)
    (h : companyTiers.find? (fun t => inRange c.employees t.2) = none) :
    (analyzeCompany c).tier = "startup" ∧ (analyzeCompany c).weight = 40 := by
  unfold analyzeCompany
  rw [h]
  exact ⟨rfl, rfl⟩

lemma find_tier_enterprise (n : Int) (h1 : (1000 : Int) ≤ n) :
    companyTiers.find? (fun t => inRange (some n) t.2) =
      some ("enterprise", ⟨100, 1000, none⟩) := by
  unfold companyTiers
  rw [List.find?_cons_of_pos _ (by simp [inRange]; omega)]

lemma find_tier_large (n : Int) (h1 : (250 : Int) ≤ n) (h2 : n ≤ (999 : Int)) :
    companyTiers.find? (fun t => inRange (some n) t.2) =
      some ("large", ⟨85, 250, some 999⟩) := by
  unfold companyTiers
  rw [List.find?_cons_of_neg _ (by simp [inRange]; omega),
    List.find?_cons_of_pos _ (by simp [inRange]; omega)]

lemma find_tier_medium (n : Int) (h1 : (50 : Int) ≤ n) (h2 : n ≤ (249 : Int)) :
    companyTiers.find? (fun t => inRange (some n) t.2) =
      some ("medium", ⟨70, 50, some 249⟩) := by
  unfold companyTiers
  rw [List.find?_cons_of_neg _ (by simp [inRange]; omega),
    List.find?_cons_of_neg _ (by simp [inRange]; omega),
    List.find?_cons_of_pos _ (by simp [inRange]; omega)]

lemma find_tier_small (n : Int) (h1 : (10 : Int) ≤ n) (h2 : n ≤ (49 : Int)) :
    companyTiers.find? (fun t => inRange (some n) t.2) =
      some ("small", ⟨55, 10, some 49⟩) := by
  unfold companyTiers
  rw [List.find?_cons_of_neg _ (by simp [inRange]; omega),
    List.find?_cons_of_neg _ (by simp [inRange]; omega),
    List.find?_cons_of_neg _ (by simp [inRange]; omega),
    List.find?_cons_of_pos _ (by simp [inRange]; omega)]

lemma find_tier_startup (n : Int) (h1 : (1 : Int) ≤ n) (h2 : n ≤ (9 : Int)) :
    companyTiers.find? (fun t => inRange (some n) t.2) =
      some ("startup", ⟨40, 1, some 9⟩) := by
  unfold companyTiers
  rw [List.find?_cons_of_neg _ (by simp [inRange]; omega),
    List.find?_cons_of_neg _ (by simp [inRange]; omega),
    List.find?_cons_of_neg _ (by simp [inRange]; omega),
    List.find?_cons_of_neg _ (by simp [inRange]; omega),
    List.find?_cons_of_pos _ (by simp [inRange]; omega)]

lemma find_tier_nonpos (n : Int) (h : n ≤ 0) :
    companyTiers.find? (fun t => inRange (some n) t.2) = none := by
  unfold companyTiers
  rw [List.find?_cons_of_neg _ (by simp [inRange]; omega),
    List.find?_cons_of_neg _ (by simp [inRange]; omega),
    List.find?_cons_of_neg _ (by simp [inRange]; omega),
    List.find?_cons_of_neg _ (by simp [inRange]; omega),
    List.find?_cons_of_neg _ (by simp [inRange]; omega)]
  rfl

/-- C6: the company classifier scans the tiers in declared order
(enterprise, large, medium, small, startup) and returns the tier whose
inclusive employee range contains the count (by the partition property the
first match is the only match); the five ranges [1,9], [10,49], [50,249],
[250,999], [1000,∞) partition the positive integers; an absent count or a
count ≤ 0 matches no range and falls back to `startup` with weight 40. -/
theorem c6_company_tiers (c : Company) :
    (∀ n : Int, 0 < n →
      ∃! p : String × TierData, p ∈ companyTiers ∧ inRange (some n) p.2 = true) ∧
    (∀ p ∈ companyTiers, inRange c.employees p.2 = true →
      (analyzeCompany c).tier = p.1 ∧ (analyzeCompany c).weight = p.2.weight) ∧
    (c.employees = none →
      (analyzeCompany c).tier = "startup" ∧ (analyzeCompany c).weight = 40) ∧
    (∀ n : Int, c.employees = some n → n ≤ 0 →
      (analyzeCompany c).tier = "startup" ∧ (analyzeCompany c).weight = 40) := by
  refine ⟨?_, ?_, ?_, ?_⟩
  · intro n hn
    have hcase : (1000 : Int) ≤ n ∨ ((250 : Int) ≤ n ∧ n ≤ 999) ∨
        ((50 : Int) ≤ n ∧ n ≤ 249) ∨ ((10 : Int) ≤ n ∧ n ≤ 49) ∨
        ((1 : Int) ≤ n ∧ n ≤ 9) := by omega
    rcases hcase with h | ⟨h1, h2⟩ | ⟨h1, h2⟩ | ⟨h1, h2⟩ | ⟨h1, h2⟩
    · refine ⟨("enterprise", ⟨100, 1000, none⟩),
        ⟨by simp [companyTiers], (inRange_unbounded n 100 1000).mpr (by omega)⟩, ?_⟩
      rintro q ⟨hqm, hqr⟩
      simp only [companyTiers, List.mem_cons, List.not_mem_nil, or_false] at hqm
      rcases hqm with rfl | rfl | rfl | rfl | rfl
      all_goals first
        | rfl
        | (rw [inRange_bounds] at hqr; omega)
        | (rw [inRange_unbounded] at hqr; omega)
    · refine ⟨("large", ⟨85, 250, some 999⟩),
        ⟨by simp [companyTiers], (inRange_bounds n 85 250 999).mpr (by omega)⟩, ?_⟩
      rintro q ⟨hqm, hqr⟩
      simp only [companyTiers, List.mem_cons, List.not_mem_nil, or_false] at hqm
      rcases hqm with rfl | rfl | rfl | rfl | rfl
      all_goals first
        | rfl
        | (rw [inRange_bounds] at hqr; omega)
        | (rw [inRange_unbounded] at hqr; omega)
    · refine ⟨("medium", ⟨70, 50, some 249⟩),
        ⟨by simp [companyTiers], (inRange_bounds n 70 50 249).mpr (by omega)⟩, ?_⟩
      rintro q ⟨hqm, hqr⟩
      simp only [companyTiers, List.mem_cons, List.not_mem_nil, or_false] at hqm
      rcases hqm with rfl | rfl | rfl | rfl | rfl
      all_goals first
        | rfl
        | (rw [inRange_bounds] at hqr; omega)
        | (rw [inRange_unbounded] at hqr; omega)
    · refine ⟨("small", ⟨55, 10, some 49⟩),
        ⟨by simp [companyTiers], (inRange_bounds n 55 10 49).mpr (by omega)⟩, ?_⟩
      rintro q ⟨hqm, hqr⟩
      simp only [companyTiers, List.mem_cons, List.not_mem_nil, or_false] at hqm
      rcases hqm with rfl | rfl | rfl | rfl | rfl
      all_goals first
        | rfl
        | (rw [inRange_bounds] at hqr; omega)
        | (rw [inRange_unbounded] at hqr; omega)
    · refine ⟨("startup", ⟨40, 1, some 9⟩),
        ⟨by simp [companyTiers], (inRange_bounds n 40 1 9).mpr (by omega)⟩, ?_⟩
      rintro q ⟨hqm, hqr⟩
      simp only [companyTiers, List.mem_cons, List.not_mem_nil, or_false] at hqm
      rcases hqm with rfl | rfl | rfl | rfl | rfl
      all_goals first
        | rfl
        | (rw [inRange_bounds] at hqr; omega)
        | (rw [inRange_unbounded] at hqr; omega)
  · intro p hp hr
    cases he : c.employees with
    | none =>
      rw [he, inRange_absent] at hr
      exact absurd hr (by simp)
    | some n =>
      rw [he] at hr
      simp only [companyTiers, List.mem_cons, List.not_mem_nil, or_false] at hp
      rcases hp with rfl | rfl | rfl | rfl | rfl
      · rw [inRange_unbounded] at hr
        exact analyzeCompany_find c _ (by rw [he]; exact find_tier_enterprise n hr)
      · rw [inRange_bounds] at hr
        exact analyzeCompany_find c _ (by rw [he]; exact find_tier_large n hr.1 hr.2)
      · rw [inRange_bounds] at hr
        exact analyzeCompany_find c _ (by rw [he]; exact find_tier_medium n hr.1 hr.2)
      · rw [inRange_bounds] at hr
        exact analyzeCompany_find c _ (by rw [he]; exact find_tier_small n hr.1 hr.2)
      · rw [inRange_bounds] at hr
        exact analyzeCompany_find c _ (by rw [he]; exact find_tier_startup n hr.1 hr.2)
  · intro he
    exact analyzeCompany_fallback c (by rw [he]; rfl)
  · intro n he hn
    exact analyzeCompany_fallback c (by rw [he]; exact find_tier_nonpos n hn)

/-- Witness for C6 at concrete counts 25, absent, and 0. -/
theorem c6_witness :
    ((analyzeCompany ⟨some 25, none, none⟩).tier = "small" ∧
      (analyzeCompany ⟨some 25, none, none⟩).weight = (⟨55, 10, some 49⟩ : TierData).weight) ∧
    ((analyzeCompany ⟨none, none, none⟩).tier = "startup" ∧
      (analyzeCompany ⟨none, none, none⟩).weight = 40) ∧
    ((analyzeCompany ⟨some 0, none, none⟩).tier = "startup" ∧
      (analyzeCompany ⟨some 0, none, none⟩).weight = 40) ∧
    (∃! p : String × TierData, p ∈ companyTiers ∧ inRange (some 25) p.2 = true) :=
  ⟨(c6_company_tiers ⟨some 25, none, none⟩).2.1 ("small", ⟨55, 10, some 49⟩)
      (by decide) (by decide),
   (c6_company_tiers ⟨none, none, none⟩).2.2.1 rfl,
   (c6_company_tiers ⟨some 0, none, none⟩).2.2.2 0 rfl (by decide),
   (c6_company_tiers ⟨some 25, none, none⟩).1 25 (by decide)⟩

/-! ## C7 -/

/-- C7 fails on the program: industry "Constructor" lowercases to
"constructor", an inherited `Object.prototype` member of the multiplier
object, so `score *= multiplier` is `NaN`, `totalScore` is `NaN` (`none`,
serialized as JSON `null`) rather than an integer in [0, 100], and the
priority falls through every threshold to "very_low". -/
theorem c7_totalScore_nan_bug :
    (calculateLeadScore ⟨some "CEO"⟩
        ⟨some 1500, some "Constructor", none⟩).totalScore = none ∧
    (calculateLeadScore ⟨some "CEO"⟩
        ⟨some 1500, some "Constructor", none⟩).priority = "very_low" := by
  have hcon : industryMultiplier
      ((analyzeCompany (⟨some 1500, some "Constructor", none⟩ : Company)).industry) =
        none := by
    rw [show (analyzeCompany (⟨some 1500, some "Constructor", none⟩ : Company)).industry =
      "Constructor" from by decide]
    exact industryMultiplier_Constructor
  rw [calculateLeadScore_parts, cappedScore_none _ _ hcon]
  exact ⟨rfl, rfl⟩

/-! ## C8 -/

lemma analyzeCompany_passthrough (c : Company) :
    (analyzeCompany c).industry = orUnknown c.industry ∧
    (analyzeCompany c).location = orUnknown c.location ∧
    (analyzeCompany c).employees = c.employees := by
  unfold analyzeCompany
  cases companyTiers.find? (fun t => inRange c.employees t.2) <;> exact ⟨rfl, rfl, rfl⟩

/-- C8 counterexample: a company with a present but empty `industry` string
gets "unknown" back, not the verbatim empty string: `industry || 'unknown'`
treats the empty string as falsy, so "unknown" is not returned only when
the field is absent. -/
theorem c8_counterexample :
    (analyzeCompany ⟨some 5, some "", none⟩).industry = "unknown" ∧
    (analyzeCompany ⟨some 5, some "", none⟩).industry ≠ "" := by
  exact ⟨by decide, by decide⟩

/-- C8 (amended): `analyzeCompany` returns `industry` (resp. `location`)
verbatim — unvalidated and not lowercased — whenever the field is present
and non-empty, and returns "unknown" when the field is absent or the empty
string; the employees value is passed through unchanged. -/
theorem c8_amended_passthrough (c : Company) :
    (∀ s, c.industry = some s → s ≠ "" → (analyzeCompany c).industry = s) ∧
    ((c.industry = none ∨ c.industry = some "") →
      (analyzeCompany c).industry = "unknown") ∧
    (∀ s, c.location = some s → s ≠ "" → (analyzeCompany c).location = s) ∧
    ((c.location = none ∨ c.location = some "") →
      (analyzeCompany c).location = "unknown") ∧
    (analyzeCompany c).employees = c.employees := by
  obtain ⟨hi, hl, hemp⟩ := analyzeCompany_passthrough c
  refine ⟨?_, ?_, ?_, ?_, hemp⟩
  · intro s hs hne
    rw [hi, hs]
    simp [orUnknown, hne]
  · intro h
    rcases h with h | h <;> rw [hi, h] <;> simp [orUnknown]
  · intro s hs hne
    rw [hl, hs]
    simp [orUnknown, hne]
  · intro h
    rcases h with h | h <;> rw [hl, h] <;> simp [orUnknown]

/-- Witness for C8 (amended): mixed-case industry passed through verbatim,
empty-string location replaced by "unknown". -/
theorem c8_amended_witness :
    (analyzeCompany ⟨some 25, some "SaaS", some ""⟩).industry = "SaaS" ∧
    (analyzeCompany ⟨some 25, some "SaaS", some ""⟩).location = "unknown" ∧
    (analyzeCompany ⟨some 25, some "SaaS", some ""⟩).employees = some 25 :=
  ⟨(c8_amended_passthrough ⟨some 25, some "SaaS", some ""⟩).1 "SaaS" rfl (by decide),
   (c8_amended_passthrough ⟨some 25, some "SaaS", some ""⟩).2.2.2.1 (Or.inr rfl),
   (c8_amended_passthrough ⟨some 25, some "SaaS", some ""⟩).2.2.2.2⟩

/-! ## C9 -/

/-- C9: `generateInsights` tests exactly four independent conditions in
fixed order — level "c_level", department exactly "sales" (so department
"business development" contributes no sales insight), tier "enterprise",
totalScore ≥ 80 (false on a `NaN` totalScore, as for every JS comparison)
— each true condition appending exactly one fixed string in that order, so
the result has between 0 and 4 entries. -/
theorem c9_insights (a : LeadAnalysis) :
    generateInsights a =
      (if a.jobAnalysis.level = "c_level" then [insightCLevel] else []) ++
      (if a.jobAnalysis.department = "sales" then [insightSales] else []) ++
      (if a.companyAnalysis.tier = "enterprise" then [insightEnterprise] else []) ++
      (if jsGe a.totalScore 80 then [insightPrime] else []) ∧
    (generateInsights a).length ≤ 4 ∧
    (a.jobAnalysis.department = "business development" →
      insightSales ∉ generateInsights a) := by
  have he : generateInsights a =
      (if a.jobAnalysis.level = "c_level" then [insightCLevel] else []) ++
      (if a.jobAnalysis.department = "sales" then [insightSales] else []) ++
      (if a.companyAnalysis.tier = "enterprise" then [insightEnterprise] else []) ++
      (if jsGe a.totalScore 80 then [insightPrime] else []) := by
    unfold generateInsights
    split_ifs <;> simp
  refine ⟨he, ?_, ?_⟩
  · rw [he]
    split_ifs <;> simp
  · intro h
    rw [he, h]
    split_ifs <;>
      first
        | exact absurd ‹"business development" = "sales"› (by decide)
        | decide

/-- Witness for C9 at a concrete analysis with department
"business development" and a high score: the c-level, enterprise and
prime-prospect insights fire, the sales insight does not. -/
theorem c9_witness :
    generateInsights ⟨some 85, ⟨90, "c_level", "business development"⟩,
        ⟨"enterprise", 100, some 2000, "unknown", "unknown"⟩, "high"⟩ =
      (if ("c_level" : String) = "c_level" then [insightCLevel] else []) ++
      (if ("business development" : String) = "sales" then [insightSales] else []) ++
      (if ("enterprise" : String) = "enterprise" then [insightEnterprise] else []) ++
      (if jsGe (some 85) 80 then [insightPrime] else []) ∧
    (generateInsights ⟨some 85, ⟨90, "c_level", "business development"⟩,
        ⟨"enterprise", 100, some 2000, "unknown", "unknown"⟩, "high"⟩).length ≤ 4 ∧
    insightSales ∉ generateInsights ⟨some 85, ⟨90, "c_level", "business development"⟩,
        ⟨"enterprise", 100, some 2000, "unknown", "unknown"⟩, "high"⟩ := by
  have h := c9_insights ⟨some 85, ⟨90, "c_level", "business development"⟩,
    ⟨"enterprise", 100, some 2000, "unknown", "unknown"⟩, "high"⟩
  exact ⟨h.1, h.2.1, h.2.2 rfl⟩

end B2B
